import Mathlib

set_option maxRecDepth 8000

/-!
Verification of the ADS-B ingestion pipeline in `src/routes/adsb.py`.

The Python source is shallowly embedded: the per-line body of
`parse_sbs_stream` (lines 66-140) becomes the pure functions `processLine`
and `stepLine`; the registry `app_module.adsb_aircraft` (a Python dict)
becomes an association list with Python-dict lookup/assignment semantics;
the publish queue `app_module.adsb_queue` becomes a list with FIFO
put/get; the route handlers `start_adsb` / `stop_adsb` become pure state
transformers over an explicit `AppState`; the reconnect control flow of
the outer loop (lines 48-150) becomes `supervisorNext` over an abstract
per-attempt outcome.  Python exceptions are modelled by `Option` results
(a swallowed per-field parse failure is a `none` from `parseFloat?`), so
every embedded function is total.  Python `float(...)` is modelled on the
finite decimal/exponent literals that occur in the SBS feed (`inf`/`nan`
and digit underscores are out of scope of this development).
-/

namespace Adsb

/-- Python `str.strip()` whitespace set (space, tab, newline, carriage
return, vertical tab, form feed). -/
def isPySpace (c : Char) : Bool :=
  c == ' ' || c == '\t' || c == '\n' || c == '\r' || c == '\x0b' || c == '\x0c'

/-- Strip `isPySpace` characters from both ends of a character list. -/
def trimChars (cs : List Char) : List Char :=
  ((cs.dropWhile isPySpace).reverse.dropWhile isPySpace).reverse

/-- Python `line.strip()` / `str.strip()` with no argument. -/
def pyStrip (s : String) : String :=
  ⟨trimChars s.data⟩

/-- Python `str.upper()` (the feed is ASCII, where `Char.toUpper` agrees). -/
def pyUpper (s : String) : String :=
  ⟨s.data.map Char.toUpper⟩

/-- Helper for Python `line.split(',')`: split a character list at commas,
always returning at least one (possibly empty) group. -/
def splitCommaAux : List Char → List (List Char)
  | [] => [[]]
  | c :: rest =>
    let r := splitCommaAux rest
    if c = ',' then [] :: r
    else
      match r with
      | [] => [[c]]
      | g :: gs => (c :: g) :: gs

/-- Python `line.split(',')` (line 72 of the source). -/
def splitComma (s : String) : List String :=
  (splitCommaAux s.data).map (fun cs => ⟨cs⟩)

/-- Numeric value of a list of decimal digit characters. -/
def natOfDigits (cs : List Char) : Nat :=
  cs.foldl (fun n c => 10 * n + (c.toNat - 48)) 0

/-- Consume one optional leading sign, returning the sign and the rest. -/
def parseSign : List Char → Int × List Char
  | '+' :: r => (1, r)
  | '-' :: r => (-1, r)
  | cs => (1, cs)

/-- Parse an unsigned decimal mantissa `digits [ '.' digits ]` with at
least one digit; returns the digit value and the number of fraction
digits. -/
def parseMantissa (cs : List Char) : Option (Nat × Nat) :=
  let intPart := cs.takeWhile Char.isDigit
  let rest := cs.dropWhile Char.isDigit
  match rest with
  | [] => if intPart.isEmpty then none else some (natOfDigits intPart, 0)
  | '.' :: frac =>
    if frac.all Char.isDigit && !(intPart.isEmpty && frac.isEmpty) then
      some (natOfDigits (intPart ++ frac), frac.length)
    else none
  | _ => none

/-- The exact rational value of the decimal literal
`sgn * (num / 10^fracLen) * 10^(esgn*e)`. -/
def ratOfDecimal (sgn : Int) (num : Nat) (fracLen : Nat) (esgn : Int) (e : Nat) : Rat :=
  if 0 ≤ esgn then mkRat (sgn * ((num * 10 ^ e : Nat) : Int)) (10 ^ fracLen)
  else mkRat (sgn * (num : Int)) (10 ^ fracLen * 10 ^ e)

/-- Python `float(s)` on finite decimal literals: optional surrounding
whitespace, optional sign, mantissa, optional `e`/`E` exponent.  `none`
models the `ValueError` that the source swallows per field. -/
def parseFloat? (s : String) : Option Rat :=
  let cs := trimChars s.data
  let (sgn, cs1) := parseSign cs
  let (mcs, rest) := cs1.span (fun c => !(c == 'e' || c == 'E'))
  match parseMantissa mcs with
  | none => none
  | some (num, fracLen) =>
    match rest with
    | [] => some (ratOfDecimal sgn num fracLen 1 0)
    | _ :: ecs =>
      let (esgn, ecs1) := parseSign ecs
      if ecs1 ≠ [] && ecs1.all Char.isDigit then
        some (ratOfDecimal sgn num fracLen esgn (natOfDigits ecs1))
      else none

/-- Python `int(...)` applied to a float value: truncation toward zero
(the sign test is on the numerator, which for `Rat` agrees with `q < 0`). -/
def ratTrunc (q : Rat) : Int :=
  if q.num < 0 then -((q.num.natAbs / q.den : Nat) : Int)
  else ((q.num.natAbs / q.den : Nat) : Int)

/-- One aircraft record of the registry `app_module.adsb_aircraft`: the
dict built starting from `{'icao': icao}` at line 81, with the optional
keys the per-type branches may add. -/
structure Aircraft where
  icao : String
  callsign : Option String := none
  alt : Option Int := none
  lat : Option Rat := none
  lon : Option Rat := none
  speed : Option Int := none
  heading : Option Int := none
  squawk : Option String := none
deriving DecidableEq, Repr

/-- Python dict lookup `m.get(k)` on the registry association list. -/
def dictGet : List (String × Aircraft) → String → Option Aircraft
  | [], _ => none
  | (k', v) :: rest, k => if k = k' then some v else dictGet rest k

/-- Python dict assignment `m[k] = v`: replace in place, or append. -/
def dictSet : List (String × Aircraft) → String → Aircraft → List (String × Aircraft)
  | [], k, v => [(k, v)]
  | (k', v') :: rest, k, v =>
    if k = k' then (k, v) :: rest else (k', v') :: dictSet rest k v

/-- Line 81: `app_module.adsb_aircraft.get(icao, {'icao': icao})`. -/
def recOf (m : List (String × Aircraft)) (k : String) : Aircraft :=
  (dictGet m k).getD { icao := k }

/-- Python `set.add` on `pending_updates`, modelled as a duplicate-free
list in insertion order. -/
def addPending (p : List String) (k : String) : List String :=
  if k ∈ p then p else p ++ [k]

/-- Lines 84-86 and 115-117: `callsign = parts[i].strip(); if callsign:
aircraft['callsign'] = callsign`. -/
def callsignUpdate (s : String) (a : Aircraft) : Aircraft :=
  if pyStrip s ≠ "" then { a with callsign := some (pyStrip s) } else a

/-- Lines 89-93 and 118-122: `if parts[11]: try: aircraft['alt'] =
int(float(parts[11])) except: pass`. -/
def altUpdate (s : String) (a : Aircraft) : Aircraft :=
  if s ≠ "" then
    match parseFloat? s with
    | some v => { a with alt := some (ratTrunc v) }
    | none => a
  else a

/-- Lines 102-106: the guarded `try` block for `aircraft['speed']`. -/
def speedUpdate (s : String) (a : Aircraft) : Aircraft :=
  if s ≠ "" then
    match parseFloat? s with
    | some v => { a with speed := some (ratTrunc v) }
    | none => a
  else a

/-- Lines 107-111: the guarded `try` block for `aircraft['heading']`. -/
def headingUpdate (s : String) (a : Aircraft) : Aircraft :=
  if s ≠ "" then
    match parseFloat? s with
    | some v => { a with heading := some (ratTrunc v) }
    | none => a
  else a

/-- Lines 94-99: `if parts[14] and parts[15]: try: aircraft['lat'] =
float(parts[14]); aircraft['lon'] = float(parts[15]) except: pass`.  The
two assignments of the shared `try` block run in source order, so a
longitude that fails to parse leaves the already-assigned latitude in
place. -/
def latLonUpdate (s14 s15 : String) (a : Aircraft) : Aircraft :=
  if s14 ≠ "" ∧ s15 ≠ "" then
    match parseFloat? s14 with
    | none => a
    | some la =>
      match parseFloat? s15 with
      | none => { a with lat := some la }
      | some lo => { a with lat := some la, lon := some lo }
  else a

/-- Lines 83-86: the `msg_type == '1'` branch (identification). -/
def applyMsg1 (parts : List String) (a : Aircraft) : Aircraft :=
  callsignUpdate (parts.getD 10 "") a

/-- Lines 88-99: the `msg_type == '3'` branch (airborne position). -/
def applyMsg3 (parts : List String) (a : Aircraft) : Aircraft :=
  latLonUpdate (parts.getD 14 "") (parts.getD 15 "") (altUpdate (parts.getD 11 "") a)

/-- Lines 101-111: the `msg_type == '4'` branch (airborne velocity). -/
def applyMsg4 (parts : List String) (a : Aircraft) : Aircraft :=
  headingUpdate (parts.getD 13 "") (speedUpdate (parts.getD 12 "") a)

/-- Lines 113-122: the `msg_type == '5'` branch (surveillance alt); the
callsign update sits behind an extra `if parts[10]:` guard. -/
def applyMsg5 (parts : List String) (a : Aircraft) : Aircraft :=
  altUpdate (parts.getD 11 "")
    (if parts.getD 10 "" ≠ "" then callsignUpdate (parts.getD 10 "") a else a)

/-- Lines 124-126: the `msg_type == '6'` branch (surveillance id). -/
def applyMsg6 (parts : List String) (a : Aircraft) : Aircraft :=
  if parts.getD 17 "" ≠ "" then { a with squawk := some (parts.getD 17 "") } else a

/-- Lines 83-126: the `elif` chain keyed on `msg_type`, including the
per-branch field-count guards. -/
def applyMsgFields (msg_type : String) (parts : List String) (a : Aircraft) : Aircraft :=
  if msg_type = "1" ∧ parts.length > 10 then applyMsg1 parts a
  else if msg_type = "3" ∧ parts.length > 15 then applyMsg3 parts a
  else if msg_type = "4" ∧ parts.length > 13 then applyMsg4 parts a
  else if msg_type = "5" ∧ parts.length > 11 then applyMsg5 parts a
  else if msg_type = "6" ∧ parts.length > 17 then applyMsg6 parts a
  else a

/-- The state the per-line body of `parse_sbs_stream` mutates:
`app_module.adsb_aircraft` and the connection-local `pending_updates`. -/
structure ParseState where
  aircraftMap : List (String × Aircraft)
  pending : List String
deriving DecidableEq, Repr

/-- Lines 67-129 of `parse_sbs_stream`: strip one delimited line and, if
it passes the shape guards, merge its fields into the registry and mark
the identifier dirty.  `none` models a `continue` (the line is skipped
and nothing is mutated). -/
def processLine (st : ParseState) (rawLine : String) : Option ParseState :=
  let line := pyStrip rawLine
  if line = "" then none
  else
    let parts := splitComma line
    if parts.length < 11 ∨ parts.headD "" ≠ "MSG" then none
    else
      let msg_type := parts.getD 1 ""
      let icao := pyUpper (parts.getD 4 "")
      if icao = "" then none
      else
        let aircraft := applyMsgFields msg_type parts (recOf st.aircraftMap icao)
        some ⟨dictSet st.aircraftMap icao aircraft, addPending st.pending icao⟩

/-- `processLine` with the `continue` case made explicit: a skipped line
leaves the state exactly as it was. -/
def processLineD (st : ParseState) (rawLine : String) : ParseState :=
  (processLine st rawLine).getD st

/-- The events `parse_sbs_stream` pushes on `app_module.adsb_queue`
(`{'type': 'aircraft', **record}`) and the keepalive frames the SSE
handler synthesizes. -/
inductive OutboundEvent where
  | aircraft (a : Aircraft)
  | keepalive
deriving DecidableEq, Repr

/-- Lines 133-138: one flush of `pending_updates` — one snapshot event per
pending identifier that still has a registry entry at flush time. -/
def flushEvents (m : List (String × Aircraft)) (pending : List String) :
    List OutboundEvent :=
  pending.filterMap (fun i => (dictGet m i).map OutboundEvent.aircraft)

/-- The full per-line state: registry, change set, outbound queue and the
`last_update` timestamp (`time.time()` values as rationals). -/
structure ReaderState where
  aircraftMap : List (String × Aircraft)
  pending : List String
  queue : List OutboundEvent
  lastUpdate : Rat
deriving DecidableEq, Repr

/-- Lines 67-140: process one line and then, only when the line was not
skipped, run the publish check `now - last_update >= 1.0` (the check sits
inside the line loop after the registry store, so `continue`d lines never
reach it). -/
def stepLine (st : ReaderState) (now : Rat) (rawLine : String) : ReaderState :=
  match processLine ⟨st.aircraftMap, st.pending⟩ rawLine with
  | none => st
  | some ps =>
    if 1 ≤ now - st.lastUpdate then
      { aircraftMap := ps.aircraftMap, pending := [],
        queue := st.queue ++ flushEvents ps.aircraftMap ps.pending,
        lastUpdate := now }
    else
      { st with aircraftMap := ps.aircraftMap, pending := ps.pending }

/-- Python `queue.Queue.put` on `app_module.adsb_queue` (FIFO). -/
def queuePut (q : List OutboundEvent) (e : OutboundEvent) : List OutboundEvent :=
  q ++ [e]

/-- Lines 228-233, the body of `stream_adsb`'s `generate` loop: one
`adsb_queue.get(timeout=1)` — it removes and returns the head event, or
yields a keepalive when the wait times out on an empty queue. -/
def generateStep (q : List OutboundEvent) : OutboundEvent × List OutboundEvent :=
  match q with
  | [] => (OutboundEvent.keepalive, [])
  | e :: rest => (e, rest)

/-- Any interleaving of two subscriber loops over the one shared queue:
each `true` in the schedule is a poll by subscriber one, each `false` a
poll by subscriber two; returns both received sequences and the leftover
queue. -/
def runSubscribers : List Bool → List OutboundEvent →
    List OutboundEvent × List OutboundEvent × List OutboundEvent
  | [], q => ([], [], q)
  | true :: sched, q =>
    let r := runSubscribers sched (generateStep q).2
    ((generateStep q).1 :: r.1, r.2.1, r.2.2)
  | false :: sched, q =>
    let r := runSubscribers sched (generateStep q).2
    (r.1, (generateStep q).1 :: r.2.1, r.2.2)

/-- The module state the route handlers touch: `app_module.adsb_process`
(`none` = no handle; `some true` = handle whose `poll()` is `None`, i.e.
still running; `some false` = handle of an exited process),
`adsb_using_service` and `adsb_aircraft`. -/
structure AppState where
  adsb_process : Option Bool
  adsb_using_service : Bool
  adsb_aircraft : List (String × Aircraft)
deriving DecidableEq, Repr

/-- How the `subprocess.Popen` call of `start_adsb` can go: raise, spawn a
process that is already dead after the 3-second settle, or spawn a
healthy one. -/
inductive SpawnOutcome where
  | raises (msg : String)
  | exitsEarly
  | running
deriving DecidableEq, Repr

/-- The environment `start_adsb` samples: whether `shutil.which` finds a
dump1090 binary, and how the spawn goes (the request's gain/device only
feed the spawned command line, not the modelled state). -/
structure StartEnv where
  dump1090Found : Bool
  spawn : SpawnOutcome
deriving DecidableEq, Repr

/-- Result of `start_adsb`: the new module state, the JSON `status` and
`message`, and whether the `parse_sbs_stream` reader thread was started
(lines 197-198). -/
structure StartResult where
  state : AppState
  status : String
  message : String
  readerStarted : Bool
deriving DecidableEq, Repr

/-- Lines 162-202: `start_adsb`. -/
def start_adsb (st : AppState) (env : StartEnv) : StartResult :=
  if st.adsb_process = some true then
    ⟨st, "already_running", "ADS-B already running", false⟩
  else if st.adsb_using_service then
    ⟨st, "already_running", "ADS-B already running (using service)", false⟩
  else if !env.dump1090Found then
    ⟨st, "error", "dump1090 not found.", false⟩
  else
    match env.spawn with
    | SpawnOutcome.raises msg => ⟨st, "error", msg, false⟩
    | SpawnOutcome.exitsEarly =>
      ⟨{ st with adsb_process := some false }, "error", "dump1090 failed to start.", false⟩
    | SpawnOutcome.running =>
      ⟨{ st with adsb_process := some true, adsb_using_service := true },
        "success", "ADS-B tracking started", true⟩

/-- Lines 205-221: `stop_adsb` — terminate any process handle, clear the
flag, empty the registry, answer `{'status': 'stopped'}`. -/
def stop_adsb (st : AppState) : AppState × String :=
  let st1 := if st.adsb_process.isSome then { st with adsb_process := none } else st
  let st2 := { st1 with adsb_using_service := false }
  let st3 := { st2 with adsb_aircraft := [] }
  (st3, "stopped")

/-- How one connection attempt of the outer loop (lines 49-148) can end. -/
inductive AttemptOutcome where
  | connectFailed
  | socketError
  | peerClosed
  | stopRequested
deriving DecidableEq, Repr

/-- What the supervisor does next once an attempt has ended. -/
inductive SupervisorAction where
  | sleepThenRetry
  | sleepThenExit
  | retryNow
  | exitNow
deriving DecidableEq, Repr

/-- Lines 48-150, the reconnect control flow: `connect` failures and
socket errors land in the `except` branch, which runs `time.sleep(2)`
before the `while adsb_using_service` condition is rechecked; a zero-byte
read (`if not data: break`, lines 62-63) and a flag-driven exit of the
inner loop fall through `sock.close()` straight back to the `while`
condition with no sleep.  Line-parse failures never end an attempt at
all: every per-field failure is swallowed inside the line loop. -/
def supervisorNext (outcome : AttemptOutcome) (flagAfter : Bool) : SupervisorAction :=
  match outcome with
  | AttemptOutcome.connectFailed =>
    if flagAfter then SupervisorAction.sleepThenRetry else SupervisorAction.sleepThenExit
  | AttemptOutcome.socketError =>
    if flagAfter then SupervisorAction.sleepThenRetry else SupervisorAction.sleepThenExit
  | AttemptOutcome.peerClosed =>
    if flagAfter then SupervisorAction.retryNow else SupervisorAction.exitNow
  | AttemptOutcome.stopRequested =>
    if flagAfter then SupervisorAction.retryNow else SupervisorAction.exitNow

/-- Seconds slept before the next check of the loop condition: the
`except` branch runs `time.sleep(2)`, the fall-through path sleeps not at
all. -/
def actionSleepSeconds : SupervisorAction → Nat
  | SupervisorAction.sleepThenRetry => 2
  | SupervisorAction.sleepThenExit => 2
  | SupervisorAction.retryNow => 0
  | SupervisorAction.exitNow => 0

/-- Whether the action ends with another connection attempt. -/
def actionRetries : SupervisorAction → Bool
  | SupervisorAction.sleepThenRetry => true
  | SupervisorAction.sleepThenExit => false
  | SupervisorAction.retryNow => true
  | SupervisorAction.exitNow => false

/-- The registry key invariant: every stored record carries its own key as
its `icao` field (records are created as `{'icao': icao}` and the `icao`
key is never reassigned). -/
def keyInv (m : List (String × Aircraft)) : Prop :=
  ∀ p ∈ m, (p.2).icao = p.1

instance (m : List (String × Aircraft)) : Decidable (keyInv m) :=
  inferInstanceAs (Decidable (∀ p ∈ m, (p.2).icao = p.1))

/-- One string-valued field evolves monotonically: it either keeps its
previous value or is overwritten by a non-empty string. -/
def strField (old new : Option String) : Prop :=
  new = old ∨ ∃ s, new = some s ∧ s ≠ ""

/-- One numeric field evolves monotonically: it either keeps its previous
value or is overwritten by an actual value (never cleared back to none). -/
def valField {α : Type} (old new : Option α) : Prop :=
  new = old ∨ new.isSome = true

/-- Per-update monotonicity of a whole record, field by field. -/
def Aircraft.monoUpdate (old new : Aircraft) : Prop :=
  new.icao = old.icao ∧
  strField old.callsign new.callsign ∧
  valField old.alt new.alt ∧
  valField old.lat new.lat ∧
  valField old.lon new.lon ∧
  valField old.speed new.speed ∧
  valField old.heading new.heading ∧
  strField old.squawk new.squawk

/-- Occurrence count of one event in an emitted event list. -/
def countEvent (e : OutboundEvent) : List OutboundEvent → Nat
  | [] => 0
  | x :: l => (if x = e then 1 else 0) + countEvent e l

/-! ### Association-list and change-set lemmas -/

theorem dictGet_dictSet_self (m : List (String × Aircraft)) (k : String) (v : Aircraft) :
    dictGet (dictSet m k v) k = some v := by
  induction m with
  | nil => simp [dictSet, dictGet]
  | cons p rest ih =>
    obtain ⟨k', v'⟩ := p
    by_cases h : k = k'
    · simp [dictSet, h, dictGet]
    · simp [dictSet, h, dictGet, ih]

theorem dictGet_dictSet_ne (m : List (String × Aircraft)) (k k' : String) (v : Aircraft)
    (h : k' ≠ k) : dictGet (dictSet m k v) k' = dictGet m k' := by
  induction m with
  | nil => simp [dictSet, dictGet, h]
  | cons p rest ih =>
    obtain ⟨k'', v''⟩ := p
    by_cases hk : k = k''
    · subst hk
      simp [dictSet, dictGet, h]
    · by_cases hk' : k' = k''
      · simp [dictSet, hk, dictGet, hk']
      · simp [dictSet, hk, dictGet, hk', ih]

theorem mem_addPending (p : List String) (k i : String) :
    i ∈ addPending p k ↔ i ∈ p ∨ i = k := by
  unfold addPending
  split_ifs with h
  · constructor
    · exact fun hi => Or.inl hi
    · intro hi
      rcases hi with hi | rfl
      · exact hi
      · exact h
  · simp [List.mem_append]

theorem nodup_addPending (p : List String) (k : String) (h : p.Nodup) :
    (addPending p k).Nodup := by
  unfold addPending
  split_ifs with hk
  · exact h
  · refine List.Nodup.append h (List.nodup_singleton k) ?_
    intro x hx hx'
    simp only [List.mem_singleton] at hx'
    subst hx'
    exact hk hx

theorem keyInv_nil : keyInv [] := by
  intro p hp
  cases hp

theorem keyInv_dictGet {m : List (String × Aircraft)} {k : String} {a : Aircraft}
    (h : keyInv m) (hl : dictGet m k = some a) : a.icao = k := by
  induction m with
  | nil => cases hl
  | cons p rest ih =>
    obtain ⟨k', v'⟩ := p
    by_cases hk : k = k'
    · subst hk
      have hl' : v' = a := by simpa [dictGet] using hl
      subst hl'
      simpa using h (k, v') (List.mem_cons_self _ _)
    · simp only [dictGet, if_neg hk] at hl
      exact ih (fun q hq => h q (List.mem_cons_of_mem _ hq)) hl

theorem keyInv_dictSet {m : List (String × Aircraft)} {k : String} {v : Aircraft}
    (h : keyInv m) (hv : v.icao = k) : keyInv (dictSet m k v) := by
  induction m with
  | nil =>
    intro p hp
    simp only [dictSet, List.mem_singleton] at hp
    subst hp
    simpa using hv
  | cons q rest ih =>
    obtain ⟨k', v'⟩ := q
    by_cases hk : k = k'
    · intro p hp
      simp only [dictSet, if_pos hk, List.mem_cons] at hp
      rcases hp with rfl | hp
      · simpa using hv
      · exact h p (List.mem_cons_of_mem _ hp)
    · intro p hp
      simp only [dictSet, if_neg hk, List.mem_cons] at hp
      rcases hp with rfl | hp
      · exact h (k', v') (List.mem_cons_self _ _)
      · exact ih (fun q hq => h q (List.mem_cons_of_mem _ hq)) p hp

theorem recOf_icao {m : List (String × Aircraft)} (h : keyInv m) (k : String) :
    (recOf m k).icao = k := by
  unfold recOf
  cases hl : dictGet m k with
  | none => rfl
  | some a => simpa using keyInv_dictGet h hl

/-! ### Monotonic-merge machinery -/

theorem strField_refl (o : Option String) : strField o o := Or.inl rfl

theorem valField_refl {α : Type} (o : Option α) : valField o o := Or.inl rfl

theorem Aircraft.monoUpdate_refl (a : Aircraft) : a.monoUpdate a :=
  ⟨rfl, strField_refl _, valField_refl _, valField_refl _, valField_refl _,
    valField_refl _, valField_refl _, strField_refl _⟩

theorem strField_trans {a b c : Option String} (h1 : strField a b) (h2 : strField b c) :
    strField a c := by
  rcases h2 with rfl | ⟨s, rfl, hs⟩
  · exact h1
  · exact Or.inr ⟨s, rfl, hs⟩

theorem valField_trans {α : Type} {a b c : Option α} (h1 : valField a b) (h2 : valField b c) :
    valField a c := by
  rcases h2 with rfl | h2
  · exact h1
  · exact Or.inr h2

theorem Aircraft.monoUpdate_trans {a b c : Aircraft} (h1 : a.monoUpdate b)
    (h2 : b.monoUpdate c) : a.monoUpdate c :=
  ⟨h2.1.trans h1.1,
    strField_trans h1.2.1 h2.2.1,
    valField_trans h1.2.2.1 h2.2.2.1,
    valField_trans h1.2.2.2.1 h2.2.2.2.1,
    valField_trans h1.2.2.2.2.1 h2.2.2.2.2.1,
    valField_trans h1.2.2.2.2.2.1 h2.2.2.2.2.2.1,
    valField_trans h1.2.2.2.2.2.2.1 h2.2.2.2.2.2.2.1,
    strField_trans h1.2.2.2.2.2.2.2 h2.2.2.2.2.2.2.2⟩

theorem callsignUpdate_mono (s : String) (a : Aircraft) :
    a.monoUpdate (callsignUpdate s a) := by
  unfold callsignUpdate
  split_ifs with h
  · exact ⟨rfl, Or.inr ⟨pyStrip s, rfl, h⟩, valField_refl _, valField_refl _,
      valField_refl _, valField_refl _, valField_refl _, strField_refl _⟩
  · exact Aircraft.monoUpdate_refl a

theorem altUpdate_mono (s : String) (a : Aircraft) :
    a.monoUpdate (altUpdate s a) := by
  unfold altUpdate
  split_ifs with h
  · cases hp : parseFloat? s with
    | none => exact Aircraft.monoUpdate_refl a
    | some v =>
      exact ⟨rfl, strField_refl _, Or.inr rfl, valField_refl _, valField_refl _,
        valField_refl _, valField_refl _, strField_refl _⟩
  · exact Aircraft.monoUpdate_refl a

theorem speedUpdate_mono (s : String) (a : Aircraft) :
    a.monoUpdate (speedUpdate s a) := by
  unfold speedUpdate
  split_ifs with h
  · cases hp : parseFloat? s with
    | none => exact Aircraft.monoUpdate_refl a
    | some v =>
      exact ⟨rfl, strField_refl _, valField_refl _, valField_refl _, valField_refl _,
        Or.inr rfl, valField_refl _, strField_refl _⟩
  · exact Aircraft.monoUpdate_refl a

theorem headingUpdate_mono (s : String) (a : Aircraft) :
    a.monoUpdate (headingUpdate s a) := by
  unfold headingUpdate
  split_ifs with h
  · cases hp : parseFloat? s with
    | none => exact Aircraft.monoUpdate_refl a
    | some v =>
      exact ⟨rfl, strField_refl _, valField_refl _, valField_refl _, valField_refl _,
        valField_refl _, Or.inr rfl, strField_refl _⟩
  · exact Aircraft.monoUpdate_refl a

theorem latLonUpdate_mono (s14 s15 : String) (a : Aircraft) :
    a.monoUpdate (latLonUpdate s14 s15 a) := by
  unfold latLonUpdate
  split_ifs with h
  · cases hp : parseFloat? s14 with
    | none => exact Aircraft.monoUpdate_refl a
    | some la =>
      cases hq : parseFloat? s15 with
      | none =>
        exact ⟨rfl, strField_refl _, valField_refl _, Or.inr rfl, valField_refl _,
          valField_refl _, valField_refl _, strField_refl _⟩
      | some lo =>
        exact ⟨rfl, strField_refl _, valField_refl _, Or.inr rfl, Or.inr rfl,
          valField_refl _, valField_refl _, strField_refl _⟩
  · exact Aircraft.monoUpdate_refl a

theorem applyMsg1_mono (parts : List String) (a : Aircraft) :
    a.monoUpdate (applyMsg1 parts a) :=
  callsignUpdate_mono _ a

theorem applyMsg3_mono (parts : List String) (a : Aircraft) :
    a.monoUpdate (applyMsg3 parts a) :=
  Aircraft.monoUpdate_trans (altUpdate_mono _ a) (latLonUpdate_mono _ _ _)

theorem applyMsg4_mono (parts : List String) (a : Aircraft) :
    a.monoUpdate (applyMsg4 parts a) :=
  Aircraft.monoUpdate_trans (speedUpdate_mono _ a) (headingUpdate_mono _ _)

theorem applyMsg5_mono (parts : List String) (a : Aircraft) :
    a.monoUpdate (applyMsg5 parts a) := by
  unfold applyMsg5
  split_ifs with h
  · exact Aircraft.monoUpdate_trans (callsignUpdate_mono _ a) (altUpdate_mono _ _)
  · exact altUpdate_mono _ a

theorem applyMsg6_mono (parts : List String) (a : Aircraft) :
    a.monoUpdate (applyMsg6 parts a) := by
  unfold applyMsg6
  split_ifs with h
  · exact ⟨rfl, strField_refl _, valField_refl _, valField_refl _, valField_refl _,
      valField_refl _, valField_refl _, Or.inr ⟨parts.getD 17 "", rfl, h⟩⟩
  · exact Aircraft.monoUpdate_refl a

theorem applyMsgFields_mono (t : String) (parts : List String) (a : Aircraft) :
    a.monoUpdate (applyMsgFields t parts a) := by
  unfold applyMsgFields
  split_ifs <;>
    first
      | exact applyMsg1_mono parts a
      | exact applyMsg3_mono parts a
      | exact applyMsg4_mono parts a
      | exact applyMsg5_mono parts a
      | exact applyMsg6_mono parts a
      | exact Aircraft.monoUpdate_refl a

end Adsb


namespace Adsb

/-! ### processLine characterization -/

theorem recOf_dictSet_self (m : List (String × Aircraft)) (k : String) (v : Aircraft) :
    recOf (dictSet m k v) k = v := by
  unfold recOf
  rw [dictGet_dictSet_self]
  rfl

theorem recOf_dictSet_ne (m : List (String × Aircraft)) (k k' : String) (v : Aircraft)
    (h : k' ≠ k) : recOf (dictSet m k v) k' = recOf m k' := by
  unfold recOf
  rw [dictGet_dictSet_ne m k k' v h]

/-- Every line is either skipped (`continue`) or stores exactly one
updated record under the uppercased fifth field and marks it pending. -/
theorem processLine_eq (st : ParseState) (line : String) :
    processLine st line = none ∨
    processLine st line = some
      ⟨dictSet st.aircraftMap (pyUpper ((splitComma (pyStrip line)).getD 4 ""))
         (applyMsgFields ((splitComma (pyStrip line)).getD 1 "") (splitComma (pyStrip line))
           (recOf st.aircraftMap (pyUpper ((splitComma (pyStrip line)).getD 4 "")))),
       addPending st.pending (pyUpper ((splitComma (pyStrip line)).getD 4 ""))⟩ := by
  unfold processLine
  dsimp only
  by_cases h1 : pyStrip line = ""
  · left
    rw [if_pos h1]
  · by_cases h2 : (splitComma (pyStrip line)).length < 11 ∨ (splitComma (pyStrip line)).headD "" ≠ "MSG"
    · left
      rw [if_neg h1, if_pos h2]
    · by_cases h3 : pyUpper ((splitComma (pyStrip line)).getD 4 "") = ""
      · left
        rw [if_neg h1, if_neg h2, if_pos h3]
      · right
        rw [if_neg h1, if_neg h2, if_neg h3]

theorem processLine_some_eq {st : ParseState} {line : String} {ps : ParseState}
    (h : processLine st line = some ps) :
    ps = ⟨dictSet st.aircraftMap (pyUpper ((splitComma (pyStrip line)).getD 4 ""))
           (applyMsgFields ((splitComma (pyStrip line)).getD 1 "") (splitComma (pyStrip line))
             (recOf st.aircraftMap (pyUpper ((splitComma (pyStrip line)).getD 4 "")))),
         addPending st.pending (pyUpper ((splitComma (pyStrip line)).getD 4 ""))⟩ := by
  rcases processLine_eq st line with h' | h'
  · exact Option.noConfusion (h'.symm.trans h)
  · exact Option.some.inj (h.symm.trans h')

theorem processLine_keyInv {st : ParseState} {line : String} {ps : ParseState}
    (h : processLine st line = some ps) (hinv : keyInv st.aircraftMap) :
    keyInv ps.aircraftMap := by
  rw [processLine_some_eq h]
  exact keyInv_dictSet hinv
    (by rw [(applyMsgFields_mono _ _ _).1, recOf_icao hinv])

theorem processLine_nodup {st : ParseState} {line : String} {ps : ParseState}
    (h : processLine st line = some ps) (hnd : st.pending.Nodup) :
    ps.pending.Nodup := by
  rw [processLine_some_eq h]
  exact nodup_addPending _ _ hnd

/-! ### Empty-field preservation: each guarded update block leaves its
field untouched when its source field is absent or empty, and no block
touches any other field -/

theorem callsignUpdate_of_empty {s : String} (a : Aircraft) (h : pyStrip s = "") :
    callsignUpdate s a = a := by
  unfold callsignUpdate
  rw [if_neg (show ¬(pyStrip s ≠ "") from fun hc => hc h)]

theorem altUpdate_of_empty {s : String} (a : Aircraft) (h : s = "") :
    altUpdate s a = a := by
  unfold altUpdate
  rw [if_neg (show ¬(s ≠ "") from fun hc => hc h)]

theorem speedUpdate_of_empty {s : String} (a : Aircraft) (h : s = "") :
    speedUpdate s a = a := by
  unfold speedUpdate
  rw [if_neg (show ¬(s ≠ "") from fun hc => hc h)]

theorem headingUpdate_of_empty {s : String} (a : Aircraft) (h : s = "") :
    headingUpdate s a = a := by
  unfold headingUpdate
  rw [if_neg (show ¬(s ≠ "") from fun hc => hc h)]

theorem latLonUpdate_empty {s14 s15 : String} (a : Aircraft) (h : s14 = "" ∨ s15 = "") :
    latLonUpdate s14 s15 a = a := by
  unfold latLonUpdate
  rw [if_neg]
  rintro ⟨h1, h2⟩
  rcases h with h | h
  · exact h1 h
  · exact h2 h

theorem applyMsg6_of_empty {parts : List String} (a : Aircraft)
    (h : parts.getD 17 "" = "") : applyMsg6 parts a = a := by
  unfold applyMsg6
  rw [if_neg (show ¬(parts.getD 17 "" ≠ "") from fun hc => hc h)]

theorem callsignUpdate_keeps (s : String) (a : Aircraft) :
    (callsignUpdate s a).alt = a.alt ∧ (callsignUpdate s a).lat = a.lat ∧
    (callsignUpdate s a).lon = a.lon ∧ (callsignUpdate s a).speed = a.speed ∧
    (callsignUpdate s a).heading = a.heading ∧ (callsignUpdate s a).squawk = a.squawk := by
  unfold callsignUpdate
  split_ifs <;> exact ⟨rfl, rfl, rfl, rfl, rfl, rfl⟩

theorem altUpdate_keeps (s : String) (a : Aircraft) :
    (altUpdate s a).callsign = a.callsign ∧ (altUpdate s a).lat = a.lat ∧
    (altUpdate s a).lon = a.lon ∧ (altUpdate s a).speed = a.speed ∧
    (altUpdate s a).heading = a.heading ∧ (altUpdate s a).squawk = a.squawk := by
  unfold altUpdate
  split_ifs with h
  · cases hp : parseFloat? s <;> exact ⟨rfl, rfl, rfl, rfl, rfl, rfl⟩
  · exact ⟨rfl, rfl, rfl, rfl, rfl, rfl⟩

theorem speedUpdate_keeps (s : String) (a : Aircraft) :
    (speedUpdate s a).callsign = a.callsign ∧ (speedUpdate s a).alt = a.alt ∧
    (speedUpdate s a).lat = a.lat ∧ (speedUpdate s a).lon = a.lon ∧
    (speedUpdate s a).heading = a.heading ∧ (speedUpdate s a).squawk = a.squawk := by
  unfold speedUpdate
  split_ifs with h
  · cases hp : parseFloat? s <;> exact ⟨rfl, rfl, rfl, rfl, rfl, rfl⟩
  · exact ⟨rfl, rfl, rfl, rfl, rfl, rfl⟩

theorem headingUpdate_keeps (s : String) (a : Aircraft) :
    (headingUpdate s a).callsign = a.callsign ∧ (headingUpdate s a).alt = a.alt ∧
    (headingUpdate s a).lat = a.lat ∧ (headingUpdate s a).lon = a.lon ∧
    (headingUpdate s a).speed = a.speed ∧ (headingUpdate s a).squawk = a.squawk := by
  unfold headingUpdate
  split_ifs with h
  · cases hp : parseFloat? s <;> exact ⟨rfl, rfl, rfl, rfl, rfl, rfl⟩
  · exact ⟨rfl, rfl, rfl, rfl, rfl, rfl⟩

theorem latLonUpdate_keeps (s14 s15 : String) (a : Aircraft) :
    (latLonUpdate s14 s15 a).callsign = a.callsign ∧
    (latLonUpdate s14 s15 a).alt = a.alt ∧
    (latLonUpdate s14 s15 a).speed = a.speed ∧
    (latLonUpdate s14 s15 a).heading = a.heading ∧
    (latLonUpdate s14 s15 a).squawk = a.squawk := by
  unfold latLonUpdate
  split_ifs with h
  · cases hp : parseFloat? s14 with
    | none => exact ⟨rfl, rfl, rfl, rfl, rfl⟩
    | some la => cases hq : parseFloat? s15 <;> exact ⟨rfl, rfl, rfl, rfl, rfl⟩
  · exact ⟨rfl, rfl, rfl, rfl, rfl⟩

theorem applyMsg6_keeps (parts : List String) (a : Aircraft) :
    (applyMsg6 parts a).callsign = a.callsign ∧ (applyMsg6 parts a).alt = a.alt ∧
    (applyMsg6 parts a).lat = a.lat ∧ (applyMsg6 parts a).lon = a.lon ∧
    (applyMsg6 parts a).speed = a.speed ∧ (applyMsg6 parts a).heading = a.heading := by
  unfold applyMsg6
  split_ifs <;> exact ⟨rfl, rfl, rfl, rfl, rfl, rfl⟩

theorem applyMsgFields_callsign_of_empty (t : String) (parts : List String) (a : Aircraft)
    (h : pyStrip (parts.getD 10 "") = "") :
    (applyMsgFields t parts a).callsign = a.callsign := by
  unfold applyMsgFields
  split_ifs
  · unfold applyMsg1
    rw [callsignUpdate_of_empty a h]
  · unfold applyMsg3
    rw [(latLonUpdate_keeps _ _ _).1, (altUpdate_keeps _ _).1]
  · unfold applyMsg4
    rw [(headingUpdate_keeps _ _).1, (speedUpdate_keeps _ _).1]
  · unfold applyMsg5
    rw [(altUpdate_keeps _ _).1]
    split_ifs with h10
    · rw [callsignUpdate_of_empty a h]
    · rfl
  · exact (applyMsg6_keeps _ _).1
  · rfl

theorem applyMsgFields_alt_of_empty (t : String) (parts : List String) (a : Aircraft)
    (h : parts.getD 11 "" = "") :
    (applyMsgFields t parts a).alt = a.alt := by
  unfold applyMsgFields
  split_ifs
  · unfold applyMsg1
    exact (callsignUpdate_keeps _ _).1
  · unfold applyMsg3
    rw [(latLonUpdate_keeps _ _ _).2.1, altUpdate_of_empty a h]
  · unfold applyMsg4
    rw [(headingUpdate_keeps _ _).2.1, (speedUpdate_keeps _ _).2.1]
  · unfold applyMsg5
    rw [altUpdate_of_empty _ h]
    split_ifs with h10
    · exact (callsignUpdate_keeps _ _).1
    · rfl
  · exact (applyMsg6_keeps _ _).2.1
  · rfl

theorem applyMsgFields_latlon_of_empty (t : String) (parts : List String) (a : Aircraft)
    (h : parts.getD 14 "" = "" ∨ parts.getD 15 "" = "") :
    (applyMsgFields t parts a).lat = a.lat ∧ (applyMsgFields t parts a).lon = a.lon := by
  unfold applyMsgFields
  split_ifs
  · unfold applyMsg1
    exact ⟨(callsignUpdate_keeps _ _).2.1, (callsignUpdate_keeps _ _).2.2.1⟩
  · unfold applyMsg3
    rw [latLonUpdate_empty _ h]
    exact ⟨(altUpdate_keeps _ _).2.1, (altUpdate_keeps _ _).2.2.1⟩
  · unfold applyMsg4
    constructor
    · rw [(headingUpdate_keeps _ _).2.2.1, (speedUpdate_keeps _ _).2.2.1]
    · rw [(headingUpdate_keeps _ _).2.2.2.1, (speedUpdate_keeps _ _).2.2.2.1]
  · unfold applyMsg5
    constructor
    · rw [(altUpdate_keeps _ _).2.1]
      split_ifs with h10
      · exact (callsignUpdate_keeps _ _).2.1
      · rfl
    · rw [(altUpdate_keeps _ _).2.2.1]
      split_ifs with h10
      · exact (callsignUpdate_keeps _ _).2.2.1
      · rfl
  · exact ⟨(applyMsg6_keeps _ _).2.2.1, (applyMsg6_keeps _ _).2.2.2.1⟩
  · exact ⟨rfl, rfl⟩

theorem applyMsgFields_speed_of_empty (t : String) (parts : List String) (a : Aircraft)
    (h : parts.getD 12 "" = "") :
    (applyMsgFields t parts a).speed = a.speed := by
  unfold applyMsgFields
  split_ifs
  · unfold applyMsg1
    exact (callsignUpdate_keeps _ _).2.2.2.1
  · unfold applyMsg3
    rw [(latLonUpdate_keeps _ _ _).2.2.1, (altUpdate_keeps _ _).2.2.2.1]
  · unfold applyMsg4
    rw [(headingUpdate_keeps _ _).2.2.2.2.1, speedUpdate_of_empty a h]
  · unfold applyMsg5
    rw [(altUpdate_keeps _ _).2.2.2.1]
    split_ifs with h10
    · exact (callsignUpdate_keeps _ _).2.2.2.1
    · rfl
  · exact (applyMsg6_keeps _ _).2.2.2.2.1
  · rfl

theorem applyMsgFields_heading_of_empty (t : String) (parts : List String) (a : Aircraft)
    (h : parts.getD 13 "" = "") :
    (applyMsgFields t parts a).heading = a.heading := by
  unfold applyMsgFields
  split_ifs
  · unfold applyMsg1
    exact (callsignUpdate_keeps _ _).2.2.2.2.1
  · unfold applyMsg3
    rw [(latLonUpdate_keeps _ _ _).2.2.2.1, (altUpdate_keeps _ _).2.2.2.2.1]
  · unfold applyMsg4
    rw [headingUpdate_of_empty _ h]
    exact (speedUpdate_keeps _ _).2.2.2.2.1
  · unfold applyMsg5
    rw [(altUpdate_keeps _ _).2.2.2.2.1]
    split_ifs with h10
    · exact (callsignUpdate_keeps _ _).2.2.2.2.1
    · rfl
  · exact (applyMsg6_keeps _ _).2.2.2.2.2
  · rfl

theorem applyMsgFields_squawk_of_empty (t : String) (parts : List String) (a : Aircraft)
    (h : parts.getD 17 "" = "") :
    (applyMsgFields t parts a).squawk = a.squawk := by
  unfold applyMsgFields
  split_ifs
  · unfold applyMsg1
    exact (callsignUpdate_keeps _ _).2.2.2.2.2
  · unfold applyMsg3
    rw [(latLonUpdate_keeps _ _ _).2.2.2.2, (altUpdate_keeps _ _).2.2.2.2.2]
  · unfold applyMsg4
    rw [(headingUpdate_keeps _ _).2.2.2.2.2, (speedUpdate_keeps _ _).2.2.2.2.2]
  · unfold applyMsg5
    rw [(altUpdate_keeps _ _).2.2.2.2.2]
    split_ifs with h10
    · exact (callsignUpdate_keeps _ _).2.2.2.2.2
    · rfl
  · rw [applyMsg6_of_empty a h]
  · rfl

/-- C1: for every aircraft record in the registry and every incoming
per-line update applied to it, a field of the record is only ever
overwritten by a new non-empty value (a non-empty string for
callsign/squawk, an actual parsed number for the numeric fields) — the
field-wise monotone-merge relation — AND a field absent or empty in the
incoming message never clears or changes the previously known value of
that field: when the line's callsign field is empty after stripping the
stored callsign is exactly unchanged, when its altitude field is empty
the altitude is unchanged, when its latitude or longitude field is empty
both coordinates are unchanged, and likewise for speed, heading and
squawk (a field beyond the line's length reads as empty, so absent
fields are covered).  This holds for every key, lines that touch another
key leaving the record untouched entirely. -/
theorem C1_monotonic_merge (st : ParseState) (line : String) (k : String) :
    (recOf st.aircraftMap k).monoUpdate (recOf (processLineD st line).aircraftMap k) ∧
    (pyStrip ((splitComma (pyStrip line)).getD 10 "") = "" →
      (recOf (processLineD st line).aircraftMap k).callsign
        = (recOf st.aircraftMap k).callsign) ∧
    ((splitComma (pyStrip line)).getD 11 "" = "" →
      (recOf (processLineD st line).aircraftMap k).alt = (recOf st.aircraftMap k).alt) ∧
    ((splitComma (pyStrip line)).getD 14 "" = "" ∨
        (splitComma (pyStrip line)).getD 15 "" = "" →
      (recOf (processLineD st line).aircraftMap k).lat = (recOf st.aircraftMap k).lat ∧
      (recOf (processLineD st line).aircraftMap k).lon = (recOf st.aircraftMap k).lon) ∧
    ((splitComma (pyStrip line)).getD 12 "" = "" →
      (recOf (processLineD st line).aircraftMap k).speed
        = (recOf st.aircraftMap k).speed) ∧
    ((splitComma (pyStrip line)).getD 13 "" = "" →
      (recOf (processLineD st line).aircraftMap k).heading
        = (recOf st.aircraftMap k).heading) ∧
    ((splitComma (pyStrip line)).getD 17 "" = "" →
      (recOf (processLineD st line).aircraftMap k).squawk
        = (recOf st.aircraftMap k).squawk) := by
  rcases processLine_eq st line with h | h
  · rw [processLineD, h]
    exact ⟨Aircraft.monoUpdate_refl _, fun _ => rfl, fun _ => rfl, fun _ => ⟨rfl, rfl⟩,
      fun _ => rfl, fun _ => rfl, fun _ => rfl⟩
  · rw [processLineD, h, Option.getD_some]
    by_cases hk : k = pyUpper ((splitComma (pyStrip line)).getD 4 "")
    · subst hk
      rw [recOf_dictSet_self]
      exact ⟨applyMsgFields_mono _ _ _,
        fun hE => applyMsgFields_callsign_of_empty _ _ _ hE,
        fun hE => applyMsgFields_alt_of_empty _ _ _ hE,
        fun hE => applyMsgFields_latlon_of_empty _ _ _ hE,
        fun hE => applyMsgFields_speed_of_empty _ _ _ hE,
        fun hE => applyMsgFields_heading_of_empty _ _ _ hE,
        fun hE => applyMsgFields_squawk_of_empty _ _ _ hE⟩
    · rw [recOf_dictSet_ne _ _ _ _ hk]
      exact ⟨Aircraft.monoUpdate_refl _, fun _ => rfl, fun _ => rfl, fun _ => ⟨rfl, rfl⟩,
        fun _ => rfl, fun _ => rfl, fun _ => rfl⟩

/-- Witness for C1: a fully-populated ABC123 record receives a type-3
update whose callsign, altitude, speed, heading and squawk fields are
empty (squawk is absent — the line has only 16 fields): each of those
stored values is exactly unchanged; and on the second line, whose
latitude field (index 14) is empty, both stored coordinates are exactly
unchanged. -/
theorem C1_monotonic_merge_witness :
    ((recOf (processLineD ⟨[("ABC123", { icao := "ABC123", callsign := some "UAL9", alt := some 5000, lat := some (mkRat 10 1), lon := some (mkRat 20 1), speed := some 400, heading := some 90, squawk := some "7700" })], []⟩ "MSG,3,1,1,ABC123,1,1,1,1,1,,,,,40.1,-73.9").aircraftMap "ABC123").callsign
      = (recOf [("ABC123", { icao := "ABC123", callsign := some "UAL9", alt := some 5000, lat := some (mkRat 10 1), lon := some (mkRat 20 1), speed := some 400, heading := some 90, squawk := some "7700" })] "ABC123").callsign) ∧
    ((recOf (processLineD ⟨[("ABC123", { icao := "ABC123", callsign := some "UAL9", alt := some 5000, lat := some (mkRat 10 1), lon := some (mkRat 20 1), speed := some 400, heading := some 90, squawk := some "7700" })], []⟩ "MSG,3,1,1,ABC123,1,1,1,1,1,,,,,40.1,-73.9").aircraftMap "ABC123").alt
      = (recOf [("ABC123", { icao := "ABC123", callsign := some "UAL9", alt := some 5000, lat := some (mkRat 10 1), lon := some (mkRat 20 1), speed := some 400, heading := some 90, squawk := some "7700" })] "ABC123").alt) ∧
    ((recOf (processLineD ⟨[("ABC123", { icao := "ABC123", callsign := some "UAL9", alt := some 5000, lat := some (mkRat 10 1), lon := some (mkRat 20 1), speed := some 400, heading := some 90, squawk := some "7700" })], []⟩ "MSG,3,1,1,ABC123,1,1,1,1,1,,,,,40.1,-73.9").aircraftMap "ABC123").speed
      = (recOf [("ABC123", { icao := "ABC123", callsign := some "UAL9", alt := some 5000, lat := some (mkRat 10 1), lon := some (mkRat 20 1), speed := some 400, heading := some 90, squawk := some "7700" })] "ABC123").speed) ∧
    ((recOf (processLineD ⟨[("ABC123", { icao := "ABC123", callsign := some "UAL9", alt := some 5000, lat := some (mkRat 10 1), lon := some (mkRat 20 1), speed := some 400, heading := some 90, squawk := some "7700" })], []⟩ "MSG,3,1,1,ABC123,1,1,1,1,1,,,,,40.1,-73.9").aircraftMap "ABC123").heading
      = (recOf [("ABC123", { icao := "ABC123", callsign := some "UAL9", alt := some 5000, lat := some (mkRat 10 1), lon := some (mkRat 20 1), speed := some 400, heading := some 90, squawk := some "7700" })] "ABC123").heading) ∧
    ((recOf (processLineD ⟨[("ABC123", { icao := "ABC123", callsign := some "UAL9", alt := some 5000, lat := some (mkRat 10 1), lon := some (mkRat 20 1), speed := some 400, heading := some 90, squawk := some "7700" })], []⟩ "MSG,3,1,1,ABC123,1,1,1,1,1,,,,,40.1,-73.9").aircraftMap "ABC123").squawk
      = (recOf [("ABC123", { icao := "ABC123", callsign := some "UAL9", alt := some 5000, lat := some (mkRat 10 1), lon := some (mkRat 20 1), speed := some 400, heading := some 90, squawk := some "7700" })] "ABC123").squawk) ∧
    ((recOf (processLineD ⟨[("ABC123", { icao := "ABC123", callsign := some "UAL9", alt := some 5000, lat := some (mkRat 10 1), lon := some (mkRat 20 1), speed := some 400, heading := some 90, squawk := some "7700" })], []⟩ "MSG,3,1,1,ABC123,1,2024,1,1,,,5000,,,,40.1,-73.9,,,,,,0").aircraftMap "ABC123").lat
      = (recOf [("ABC123", { icao := "ABC123", callsign := some "UAL9", alt := some 5000, lat := some (mkRat 10 1), lon := some (mkRat 20 1), speed := some 400, heading := some 90, squawk := some "7700" })] "ABC123").lat) ∧
    ((recOf (processLineD ⟨[("ABC123", { icao := "ABC123", callsign := some "UAL9", alt := some 5000, lat := some (mkRat 10 1), lon := some (mkRat 20 1), speed := some 400, heading := some 90, squawk := some "7700" })], []⟩ "MSG,3,1,1,ABC123,1,2024,1,1,,,5000,,,,40.1,-73.9,,,,,,0").aircraftMap "ABC123").lon
      = (recOf [("ABC123", { icao := "ABC123", callsign := some "UAL9", alt := some 5000, lat := some (mkRat 10 1), lon := some (mkRat 20 1), speed := some 400, heading := some 90, squawk := some "7700" })] "ABC123").lon) := by
  have h1 := C1_monotonic_merge ⟨[("ABC123", { icao := "ABC123", callsign := some "UAL9", alt := some 5000, lat := some (mkRat 10 1), lon := some (mkRat 20 1), speed := some 400, heading := some 90, squawk := some "7700" })], []⟩ "MSG,3,1,1,ABC123,1,1,1,1,1,,,,,40.1,-73.9" "ABC123"
  have h2 := C1_monotonic_merge ⟨[("ABC123", { icao := "ABC123", callsign := some "UAL9", alt := some 5000, lat := some (mkRat 10 1), lon := some (mkRat 20 1), speed := some 400, heading := some 90, squawk := some "7700" })], []⟩ "MSG,3,1,1,ABC123,1,2024,1,1,,,5000,,,,40.1,-73.9,,,,,,0" "ABC123"
  exact ⟨h1.2.1 (by decide), h1.2.2.1 (by decide), h1.2.2.2.2.1 (by decide),
    h1.2.2.2.2.2.1 (by decide), h1.2.2.2.2.2.2 (by decide),
    (h2.2.2.2.1 (Or.inl (by decide))).1, (h2.2.2.2.1 (Or.inl (by decide))).2⟩

end Adsb

namespace Adsb

/-! ### Flush counting machinery -/

theorem flushEvents_cons (m : List (String × Aircraft)) (j : String) (rest : List String) :
    flushEvents m (j :: rest) =
      match dictGet m j with
      | none => flushEvents m rest
      | some b => OutboundEvent.aircraft b :: flushEvents m rest := by
  unfold flushEvents
  cases hg : dictGet m j <;> simp [List.filterMap_cons, hg]

theorem countEvent_flush_zero {m : List (String × Aircraft)} {pending : List String}
    {a : Aircraft} (hinv : keyInv m) (hnot : a.icao ∉ pending) :
    countEvent (OutboundEvent.aircraft a) (flushEvents m pending) = 0 := by
  induction pending with
  | nil => rfl
  | cons j rest ih =>
    have hrest : a.icao ∉ rest := fun hr => hnot (List.mem_cons_of_mem _ hr)
    rw [flushEvents_cons]
    cases hg : dictGet m j with
    | none => exact ih hrest
    | some b =>
      have hb : b ≠ a := by
        intro he
        rw [he] at hg
        exact hnot (by rw [keyInv_dictGet hinv hg]; exact List.mem_cons_self _ _)
      simp only [countEvent]
      rw [if_neg (fun hcon => hb (OutboundEvent.aircraft.inj hcon)), ih hrest]

theorem countEvent_flush_one {m : List (String × Aircraft)} {pending : List String}
    {a : Aircraft} (hinv : keyInv m) (hnd : pending.Nodup)
    (hmem : a.icao ∈ pending) (ha : dictGet m a.icao = some a) :
    countEvent (OutboundEvent.aircraft a) (flushEvents m pending) = 1 := by
  induction pending with
  | nil => cases hmem
  | cons j rest ih =>
    rw [flushEvents_cons]
    rcases List.mem_cons.mp hmem with heq | hmem'
    · have hnotrest : a.icao ∉ rest := by
        rw [heq]
        exact (List.nodup_cons.mp hnd).1
      rw [← heq, ha]
      simp only [countEvent]
      rw [countEvent_flush_zero hinv hnotrest]
      simp
    · have hrestnd : rest.Nodup := (List.nodup_cons.mp hnd).2
      cases hg : dictGet m j with
      | none => exact ih hrestnd hmem'
      | some b =>
        have hb : b ≠ a := by
          intro he
          rw [he] at hg
          have hj : a.icao = j := keyInv_dictGet hinv hg
          rw [hj] at hmem'
          exact (List.nodup_cons.mp hnd).1 hmem'
        simp only [countEvent]
        rw [if_neg (fun hcon => hb (OutboundEvent.aircraft.inj hcon)), ih hrestnd hmem']

theorem aircraft_mem_flush {m : List (String × Aircraft)} {pending : List String}
    {a : Aircraft} (hinv : keyInv m)
    (hmem : OutboundEvent.aircraft a ∈ flushEvents m pending) :
    a.icao ∈ pending ∧ dictGet m a.icao = some a := by
  unfold flushEvents at hmem
  rw [List.mem_filterMap] at hmem
  obtain ⟨i, hi, hfi⟩ := hmem
  cases hg : dictGet m i with
  | none =>
    rw [hg] at hfi
    cases hfi
  | some b =>
    rw [hg] at hfi
    have hb : b = a := OutboundEvent.aircraft.inj (Option.some.inj hfi)
    rw [hb] at hg
    have hj : a.icao = i := keyInv_dictGet hinv hg
    rw [hj]
    exact ⟨hi, hg⟩

theorem keepalive_not_mem_flush (m : List (String × Aircraft)) (pending : List String) :
    OutboundEvent.keepalive ∉ flushEvents m pending := by
  unfold flushEvents
  rw [List.mem_filterMap]
  rintro ⟨i, hi, hfi⟩
  cases hg : dictGet m i <;> rw [hg] at hfi <;> simp at hfi

/-- C5: when a publish tick fires (the line was accepted and at least one
second elapsed since the last publish), the flushed batch contains
exactly one aircraft event for each identifier of the ChangeSet that has
a registry entry at flush time, each event carries that aircraft's
current registry snapshot, nothing else is emitted, the ChangeSet is
cleared and the timestamp is reset to `now` — so at most one event per
aircraft is emitted per interval even if it changed multiple times. -/
theorem C5_publish_tick (st : ReaderState) (now : Rat) (line : String) (ps : ParseState)
    (hps : processLine ⟨st.aircraftMap, st.pending⟩ line = some ps)
    (htime : 1 ≤ now - st.lastUpdate)
    (hnd : st.pending.Nodup)
    (hinv : keyInv st.aircraftMap) :
    (stepLine st now line).pending = [] ∧
    (stepLine st now line).lastUpdate = now ∧
    (stepLine st now line).queue = st.queue ++ flushEvents ps.aircraftMap ps.pending ∧
    (∀ a : Aircraft, a.icao ∈ ps.pending → dictGet ps.aircraftMap a.icao = some a →
      countEvent (OutboundEvent.aircraft a) (flushEvents ps.aircraftMap ps.pending) = 1) ∧
    (∀ a : Aircraft, OutboundEvent.aircraft a ∈ flushEvents ps.aircraftMap ps.pending →
      a.icao ∈ ps.pending ∧ dictGet ps.aircraftMap a.icao = some a) ∧
    OutboundEvent.keepalive ∉ flushEvents ps.aircraftMap ps.pending := by
  have hinv' : keyInv ps.aircraftMap := processLine_keyInv hps hinv
  have hnd' : ps.pending.Nodup := processLine_nodup hps hnd
  have hstep : stepLine st now line =
      { aircraftMap := ps.aircraftMap, pending := [],
        queue := st.queue ++ flushEvents ps.aircraftMap ps.pending, lastUpdate := now } := by
    unfold stepLine
    rw [hps]
    dsimp only
    rw [if_pos htime]
  refine ⟨by rw [hstep], by rw [hstep], by rw [hstep], ?_, ?_, keepalive_not_mem_flush _ _⟩
  · intro a hmem ha
    exact countEvent_flush_one hinv' hnd' hmem ha
  · intro a hmem
    exact aircraft_mem_flush hinv' hmem

attribute [local semireducible] Rat.sub in
/-- Witness for C5: aircraft ABC123 was already updated once within the
window (it is pending with altitude 5000); a second update (callsign
UAL9) arrives two seconds after the last publish, and the flush emits
exactly one aggregated snapshot carrying both fields. -/
theorem C5_publish_tick_witness :
    (stepLine ⟨[("ABC123", { icao := "ABC123", alt := some 5000 })], ["ABC123"], [],
        mkRat 0 1⟩ (mkRat 2 1) "MSG,1,1,1,ABC123,1,1,1,1,1,UAL9").pending = [] ∧
    (stepLine ⟨[("ABC123", { icao := "ABC123", alt := some 5000 })], ["ABC123"], [],
        mkRat 0 1⟩ (mkRat 2 1) "MSG,1,1,1,ABC123,1,1,1,1,1,UAL9").lastUpdate = mkRat 2 1 ∧
    (stepLine ⟨[("ABC123", { icao := "ABC123", alt := some 5000 })], ["ABC123"], [],
        mkRat 0 1⟩ (mkRat 2 1) "MSG,1,1,1,ABC123,1,1,1,1,1,UAL9").queue =
      [] ++ flushEvents
        [("ABC123", { icao := "ABC123", callsign := some "UAL9", alt := some 5000 })]
        ["ABC123"] ∧
    countEvent
      (OutboundEvent.aircraft
        { icao := "ABC123", callsign := some "UAL9", alt := some 5000 })
      (flushEvents
        [("ABC123", { icao := "ABC123", callsign := some "UAL9", alt := some 5000 })]
        ["ABC123"]) = 1 := by
  have h := C5_publish_tick
    ⟨[("ABC123", { icao := "ABC123", alt := some 5000 })], ["ABC123"], [], mkRat 0 1⟩
    (mkRat 2 1) "MSG,1,1,1,ABC123,1,1,1,1,1,UAL9"
    ⟨[("ABC123", { icao := "ABC123", callsign := some "UAL9", alt := some 5000 })],
      ["ABC123"]⟩
    (by decide) (by decide) (by decide) (by decide)
  exact ⟨h.1, h.2.1, h.2.2.1,
    h.2.2.2.1 { icao := "ABC123", callsign := some "UAL9", alt := some 5000 }
      (by decide) (by decide)⟩

end Adsb

namespace Adsb

/-! ### Per-field update characterizations -/

theorem altUpdate_parseFail {s : String} (a : Aircraft) (h : parseFloat? s = none) :
    altUpdate s a = a := by
  unfold altUpdate
  split_ifs with hg
  · rw [h]
  · rfl

theorem speedUpdate_parseFail {s : String} (a : Aircraft) (h : parseFloat? s = none) :
    speedUpdate s a = a := by
  unfold speedUpdate
  split_ifs with hg
  · rw [h]
  · rfl

theorem headingUpdate_parseFail {s : String} (a : Aircraft) (h : parseFloat? s = none) :
    headingUpdate s a = a := by
  unfold headingUpdate
  split_ifs with hg
  · rw [h]
  · rfl

theorem altUpdate_lat (s : String) (a : Aircraft) : (altUpdate s a).lat = a.lat := by
  unfold altUpdate
  split_ifs with h
  · cases hp : parseFloat? s <;> rfl
  · rfl

theorem altUpdate_lon (s : String) (a : Aircraft) : (altUpdate s a).lon = a.lon := by
  unfold altUpdate
  split_ifs with h
  · cases hp : parseFloat? s <;> rfl
  · rfl

theorem latLonUpdate_parseFail {s14 s15 : String} (a : Aircraft)
    (h : parseFloat? s14 = none) : latLonUpdate s14 s15 a = a := by
  unfold latLonUpdate
  split_ifs with hg
  · rw [h]
  · rfl

theorem latLonUpdate_latOnly {s14 s15 : String} (a : Aircraft) {la : Rat}
    (h14 : s14 ≠ "") (h15 : s15 ≠ "") (hla : parseFloat? s14 = some la)
    (hlo : parseFloat? s15 = none) :
    latLonUpdate s14 s15 a = { a with lat := some la } := by
  unfold latLonUpdate
  rw [if_pos ⟨h14, h15⟩, hla, hlo]

theorem latLonUpdate_both {s14 s15 : String} (a : Aircraft) {la lo : Rat}
    (h14 : s14 ≠ "") (h15 : s15 ≠ "") (hla : parseFloat? s14 = some la)
    (hlo : parseFloat? s15 = some lo) :
    latLonUpdate s14 s15 a = { a with lat := some la, lon := some lo } := by
  unfold latLonUpdate
  rw [if_pos ⟨h14, h15⟩, hla, hlo]

theorem applyMsgFields_three {parts : List String} (hlen : 15 < parts.length)
    (a : Aircraft) : applyMsgFields "3" parts a = applyMsg3 parts a := by
  unfold applyMsgFields
  rw [if_neg, if_pos ⟨rfl, hlen⟩]
  rintro ⟨h, -⟩
  exact absurd h (by decide)

/-- C2 counterexample: on a type-3 line with more than 15 fields whose
latitude field parses but whose longitude field is non-empty and fails to
parse, the latitude alone is applied (it changes from none to 40.1 while
the longitude stays none), refuting the claim that neither field of the
record is changed in that case. -/
theorem C2_latlon_pair_counterexample :
    parseFloat? "40.1" = some (mkRat 401 10) ∧
    parseFloat? "xx" = none ∧
    15 < (splitComma (pyStrip "MSG,3,1,1,ABC123,1,1,1,1,1,,,,,40.1,xx")).length ∧
    (splitComma (pyStrip "MSG,3,1,1,ABC123,1,1,1,1,1,,,,,40.1,xx")).getD 1 "" = "3" ∧
    (recOf ([] : List (String × Aircraft)) "ABC123").lat = none ∧
    (recOf (processLineD ⟨[], []⟩ "MSG,3,1,1,ABC123,1,1,1,1,1,,,,,40.1,xx").aircraftMap
        "ABC123").lat = some (mkRat 401 10) ∧
    (recOf (processLineD ⟨[], []⟩ "MSG,3,1,1,ABC123,1,1,1,1,1,,,,,40.1,xx").aircraftMap
        "ABC123").lon = none := by
  decide

/-- C2 amended: on a type-3 line with more than 15 fields, if the
latitude field (index 14) or the longitude field (index 15) is empty, or
the latitude fails to parse, neither coordinate of the record changes;
if both are non-empty and both parse, both are applied; but if the
latitude parses and the longitude is non-empty yet fails to parse, the
latitude alone is overwritten and the longitude keeps its previous value
— the pair property fails in exactly this case. -/
theorem C2_latlon_pair_amended (st : ParseState) (line : String) (ps : ParseState)
    (parts : List String) (icao : String)
    (hparts : splitComma (pyStrip line) = parts)
    (hicao : pyUpper (parts.getD 4 "") = icao)
    (hps : processLine st line = some ps)
    (htype : parts.getD 1 "" = "3")
    (hlen : 15 < parts.length) :
    ((parts.getD 14 "" = "" ∨ parts.getD 15 "" = "") →
      (recOf ps.aircraftMap icao).lat = (recOf st.aircraftMap icao).lat ∧
      (recOf ps.aircraftMap icao).lon = (recOf st.aircraftMap icao).lon) ∧
    (parseFloat? (parts.getD 14 "") = none →
      (recOf ps.aircraftMap icao).lat = (recOf st.aircraftMap icao).lat ∧
      (recOf ps.aircraftMap icao).lon = (recOf st.aircraftMap icao).lon) ∧
    (∀ la : Rat, parts.getD 14 "" ≠ "" → parts.getD 15 "" ≠ "" →
      parseFloat? (parts.getD 14 "") = some la → parseFloat? (parts.getD 15 "") = none →
      (recOf ps.aircraftMap icao).lat = some la ∧
      (recOf ps.aircraftMap icao).lon = (recOf st.aircraftMap icao).lon) ∧
    (∀ la lo : Rat, parts.getD 14 "" ≠ "" → parts.getD 15 "" ≠ "" →
      parseFloat? (parts.getD 14 "") = some la → parseFloat? (parts.getD 15 "") = some lo →
      (recOf ps.aircraftMap icao).lat = some la ∧
      (recOf ps.aircraftMap icao).lon = some lo) := by
  subst hparts
  subst hicao
  have hmap : recOf ps.aircraftMap (pyUpper ((splitComma (pyStrip line)).getD 4 "")) =
      applyMsg3 (splitComma (pyStrip line))
        (recOf st.aircraftMap (pyUpper ((splitComma (pyStrip line)).getD 4 ""))) := by
    rw [processLine_some_eq hps]
    dsimp only
    rw [recOf_dictSet_self, htype, applyMsgFields_three hlen]
  rw [hmap]
  unfold applyMsg3
  refine ⟨?_, ?_, ?_, ?_⟩
  · intro h
    rw [latLonUpdate_empty _ h, altUpdate_lat, altUpdate_lon]
    exact ⟨rfl, rfl⟩
  · intro h
    rw [latLonUpdate_parseFail _ h, altUpdate_lat, altUpdate_lon]
    exact ⟨rfl, rfl⟩
  · intro la h14 h15 hla hlo
    rw [latLonUpdate_latOnly _ h14 h15 hla hlo]
    exact ⟨rfl, altUpdate_lon _ _⟩
  · intro la lo h14 h15 hla hlo
    rw [latLonUpdate_both _ h14 h15 hla hlo]
    exact ⟨rfl, rfl⟩

/-- Witness for the amended C2 on the lat-parses-lon-fails line. -/
theorem C2_latlon_pair_amended_witness :
    (recOf [("ABC123", { icao := "ABC123", lat := some (mkRat 401 10) })] "ABC123").lat
        = some (mkRat 401 10) ∧
    (recOf [("ABC123", { icao := "ABC123", lat := some (mkRat 401 10) })] "ABC123").lon
        = (recOf ([] : List (String × Aircraft)) "ABC123").lon := by
  exact (C2_latlon_pair_amended ⟨[], []⟩ "MSG,3,1,1,ABC123,1,1,1,1,1,,,,,40.1,xx"
      ⟨[("ABC123", { icao := "ABC123", lat := some (mkRat 401 10) })], ["ABC123"]⟩
      (splitComma (pyStrip "MSG,3,1,1,ABC123,1,1,1,1,1,,,,,40.1,xx")) "ABC123"
      rfl (by decide) (by decide) (by decide) (by decide)).2.2.1
    (mkRat 401 10) (by decide) (by decide) (by decide) (by decide)

/-- C3 counterexample: in the spec's example line the latitude 40.1 and
longitude -73.9 sit at 0-based indices 15 and 16, and index 14 is empty,
so the code's pair guard on indices 14/15 fails and no position is
stored, refuting the claimed lat 40.1 / lon -73.9. -/
theorem C3_example_line_counterexample :
    (splitComma (pyStrip "MSG,3,1,1,ABC123,1,2024,1,1,,,5000,,,,40.1,-73.9,,,,,,0")).getD 14 ""
        = "" ∧
    (splitComma (pyStrip "MSG,3,1,1,ABC123,1,2024,1,1,,,5000,,,,40.1,-73.9,,,,,,0")).getD 15 ""
        = "40.1" ∧
    ¬((recOf (processLineD ⟨[], []⟩
          "MSG,3,1,1,ABC123,1,2024,1,1,,,5000,,,,40.1,-73.9,,,,,,0").aircraftMap
            "ABC123").lat = some (mkRat 401 10) ∧
      (recOf (processLineD ⟨[], []⟩
          "MSG,3,1,1,ABC123,1,2024,1,1,,,5000,,,,40.1,-73.9,,,,,,0").aircraftMap
            "ABC123").lon = some (mkRat (-739) 10)) := by
  decide

/-- C3 amended: processing the example line against an empty registry
produces a record for ABC123 with altitude 5000 and no latitude or
longitude (the line's field 14 is empty, so the lat/lon pair guard
fails). -/
theorem C3_example_line_amended :
    processLine ⟨[], []⟩ "MSG,3,1,1,ABC123,1,2024,1,1,,,5000,,,,40.1,-73.9,,,,,,0" =
      some ⟨[("ABC123", { icao := "ABC123", alt := some 5000 })], ["ABC123"]⟩ := by
  decide

end Adsb

namespace Adsb

/-- C4 counterexample: a line with 11+ fields, tag MSG and a fresh
identifier whose numeric fields are non-numeric (both floats fail to
parse) still creates a registry entry for NEWID and marks it pending —
the registry does not stay completely unchanged. -/
theorem C4_malformed_counterexample :
    11 ≤ (splitComma (pyStrip "MSG,4,1,1,NEWID,1,1,1,1,1,,,xx,yy")).length ∧
    parseFloat? "xx" = none ∧
    parseFloat? "yy" = none ∧
    processLine ⟨[], []⟩ "MSG,4,1,1,NEWID,1,1,1,1,1,,,xx,yy" =
      some ⟨[("NEWID", { icao := "NEWID" })], ["NEWID"]⟩ ∧
    processLineD ⟨[], []⟩ "MSG,4,1,1,NEWID,1,1,1,1,1,,,xx,yy" ≠ ⟨[], []⟩ := by
  decide

/-- C4 amended: lines with fewer than 11 comma-separated fields or a
leading tag other than MSG are skipped and leave the registry state
exactly unchanged, and nothing can raise (the whole embedding is total —
every per-field parse failure is a swallowed `none`); a non-numeric value
where a number is expected never updates that field; but such a line is
not a no-op on the registry: it still stores an entry for its identifier
(see the counterexample and C10). -/
theorem C4_malformed_amended (st : ParseState) (line : String) (parts : List String)
    (a : Aircraft) :
    ((splitComma (pyStrip line)).length < 11 ∨ (splitComma (pyStrip line)).headD "" ≠ "MSG" →
      processLine st line = none ∧ processLineD st line = st) ∧
    (parseFloat? (parts.getD 12 "") = none → parseFloat? (parts.getD 13 "") = none →
      applyMsg4 parts a = a) ∧
    (parseFloat? (parts.getD 11 "") = none → altUpdate (parts.getD 11 "") a = a) := by
  refine ⟨?_, ?_, ?_⟩
  · intro h
    have hnone : processLine st line = none := by
      unfold processLine
      dsimp only
      by_cases h1 : pyStrip line = ""
      · rw [if_pos h1]
      · rw [if_neg h1, if_pos h]
    exact ⟨hnone, by rw [processLineD, hnone]; rfl⟩
  · intro h12 h13
    unfold applyMsg4
    rw [speedUpdate_parseFail a h12, headingUpdate_parseFail a h13]
  · intro h11
    exact altUpdate_parseFail a h11

/-- Witness for the amended C4: a short garbage line is skipped with the
state untouched, and non-numeric speed/heading fields update nothing. -/
theorem C4_malformed_amended_witness :
    (processLine ⟨[], []⟩ "BAD,LINE" = none ∧
      processLineD ⟨[], []⟩ "BAD,LINE" = ⟨[], []⟩) ∧
    applyMsg4 ["MSG", "4", "1", "1", "NEWID", "1", "1", "1", "1", "1", "", "", "xx", "yy"]
      { icao := "NEWID" } = { icao := "NEWID" } := by
  have h := C4_malformed_amended ⟨[], []⟩ "BAD,LINE"
    ["MSG", "4", "1", "1", "NEWID", "1", "1", "1", "1", "1", "", "", "xx", "yy"]
    { icao := "NEWID" }
  exact ⟨h.1 (by decide), h.2.1 (by decide) (by decide)⟩

/-- C10: every line whose trimmed form splits into at least 11 fields
with head MSG and a non-empty uppercased fifth field stores an entry in
the registry under that identifier and marks it dirty — whatever the
message-type code and even when every per-field guard fails — so the
registry can hold records carrying nothing but the identifier. -/
theorem C10_entry_always_stored (st : ParseState) (line : String)
    (hlen : 11 ≤ (splitComma (pyStrip line)).length)
    (hmsg : (splitComma (pyStrip line)).headD "" = "MSG")
    (hicao : pyUpper ((splitComma (pyStrip line)).getD 4 "") ≠ "") :
    ∃ ps : ParseState, processLine st line = some ps ∧
      (dictGet ps.aircraftMap (pyUpper ((splitComma (pyStrip line)).getD 4 ""))).isSome
        = true ∧
      pyUpper ((splitComma (pyStrip line)).getD 4 "") ∈ ps.pending := by
  rcases processLine_eq st line with h | h
  · exfalso
    unfold processLine at h
    dsimp only at h
    by_cases h1 : pyStrip line = ""
    · rw [h1] at hlen
      have hone : (splitComma "").length = 1 := rfl
      omega
    · have hguard : ¬((splitComma (pyStrip line)).length < 11 ∨
          (splitComma (pyStrip line)).headD "" ≠ "MSG") := by
        rintro (hc | hc)
        · omega
        · exact hc hmsg
      rw [if_neg h1, if_neg hguard, if_neg hicao] at h
      exact Option.noConfusion h
  · refine ⟨_, h, ?_, ?_⟩
    · rw [dictGet_dictSet_self]
      rfl
    · rw [mem_addPending]
      right
      rfl

/-- Witness for C10: a type-9 line (no extraction branch matches) with a
lowercase identifier creates the entry ABC123 holding only the
identifier, and marks it pending. -/
theorem C10_entry_always_stored_witness :
    (∃ ps : ParseState,
      processLine ⟨[], []⟩ "MSG,9,1,1,abc123,1,1,1,1,1,1" = some ps ∧
      (dictGet ps.aircraftMap
        (pyUpper ((splitComma (pyStrip "MSG,9,1,1,abc123,1,1,1,1,1,1")).getD 4 ""))).isSome
          = true ∧
      pyUpper ((splitComma (pyStrip "MSG,9,1,1,abc123,1,1,1,1,1,1")).getD 4 "")
        ∈ ps.pending) ∧
    processLine ⟨[], []⟩ "MSG,9,1,1,abc123,1,1,1,1,1,1" =
      some ⟨[("ABC123", { icao := "ABC123" })], ["ABC123"]⟩ := by
  exact ⟨C10_entry_always_stored ⟨[], []⟩ "MSG,9,1,1,abc123,1,1,1,1,1,1"
    (by decide) (by decide) (by decide), by decide⟩

/-- C6 counterexample: a peer close (zero-byte read) with the feed-active
flag still true makes the supervisor retry immediately — it does not
sleep the fixed 2-second backoff in that case. -/
theorem C6_backoff_counterexample :
    supervisorNext AttemptOutcome.peerClosed true = SupervisorAction.retryNow ∧
    actionSleepSeconds (supervisorNext AttemptOutcome.peerClosed true) = 0 ∧
    SupervisorAction.retryNow ≠ SupervisorAction.sleepThenRetry := by
  decide

/-- C6 amended: the 2-second backoff is slept exactly when the connection
attempt ended by raising (connect failure or socket error); after a peer
close via zero-byte read, or a flag-driven inner exit, the next step
happens with no sleep; and in every case another attempt runs exactly
when the feed-active flag is still true — the loop never exits merely
because of a dropped connection, and line-parse failures cannot end an
attempt at all (they are swallowed per field). -/
theorem C6_backoff_amended (o : AttemptOutcome) (f : Bool) :
    (actionSleepSeconds (supervisorNext o f) =
      if o = AttemptOutcome.connectFailed ∨ o = AttemptOutcome.socketError then 2 else 0) ∧
    actionRetries (supervisorNext o f) = f := by
  cases o <;> cases f <;>
    simp [supervisorNext, actionSleepSeconds, actionRetries]

theorem start_adsb_preserves_aircraft (st : AppState) (env : StartEnv) :
    (start_adsb st env).state.adsb_aircraft = st.adsb_aircraft := by
  obtain ⟨found, spawn⟩ := env
  unfold start_adsb
  split_ifs <;> first | rfl | (cases spawn <;> rfl)

/-- C7: stop always answers status stopped, clears the feed-active flag
and empties the registry; it is idempotent (a second call returns the
same response and leaves the state identical), and any subsequent start
call begins with no residual aircraft. -/
theorem C7_stop_idempotent (st : AppState) :
    (stop_adsb st).2 = "stopped" ∧
    (stop_adsb st).1.adsb_using_service = false ∧
    (stop_adsb st).1.adsb_aircraft = [] ∧
    stop_adsb (stop_adsb st).1 = stop_adsb st ∧
    (∀ env : StartEnv, (start_adsb (stop_adsb st).1 env).state.adsb_aircraft = []) := by
  obtain ⟨proc, flag, planes⟩ := st
  have hstop : stop_adsb ⟨proc, flag, planes⟩ = (⟨none, false, []⟩, "stopped") := by
    unfold stop_adsb
    cases proc <;> rfl
  rw [hstop]
  refine ⟨rfl, rfl, rfl, ?_, ?_⟩
  · rfl
  · intro env
    rw [start_adsb_preserves_aircraft]

/-- C8: start while a session is active (running process handle or the
feed-active flag set) answers already_running, changes no state and
starts no reader; start with no active session but a missing binary or a
failed/early-dying spawn answers a structured error, leaves the
feed-active flag false and starts no reader. -/
theorem C8_start_guards (st : AppState) (env : StartEnv) :
    ((st.adsb_process = some true ∨ st.adsb_using_service = true) →
      (start_adsb st env).status = "already_running" ∧
      (start_adsb st env).state = st ∧
      (start_adsb st env).readerStarted = false) ∧
    (st.adsb_process ≠ some true → st.adsb_using_service = false →
      (env.dump1090Found = false ∨ env.spawn ≠ SpawnOutcome.running) →
      (start_adsb st env).status = "error" ∧
      (start_adsb st env).state.adsb_using_service = false ∧
      (start_adsb st env).readerStarted = false) := by
  obtain ⟨found, spawn⟩ := env
  constructor
  · intro h
    unfold start_adsb
    rcases h with h | h
    · rw [if_pos h]
      exact ⟨rfl, rfl, rfl⟩
    · by_cases hp : st.adsb_process = some true
      · rw [if_pos hp]
        exact ⟨rfl, rfl, rfl⟩
      · rw [if_neg hp, if_pos h]
        exact ⟨rfl, rfl, rfl⟩
  · intro hp hf henv
    unfold start_adsb
    rw [if_neg hp, if_neg (by simp [hf])]
    by_cases hd : found = true
    · subst hd
      have hs : spawn ≠ SpawnOutcome.running := by
        rcases henv with hc | hc
        · simp at hc
        · exact hc
      rw [if_neg (show ¬((!true) = true) by decide)]
      cases spawn with
      | raises msg => exact ⟨rfl, hf, rfl⟩
      | exitsEarly => exact ⟨rfl, hf, rfl⟩
      | running => exact absurd rfl hs
    · have hd' : found = false := by
        cases found
        · rfl
        · exact absurd rfl hd
      subst hd'
      rw [if_pos (show (!false) = true by decide)]
      exact ⟨rfl, hf, rfl⟩

/-- Witness for C8: a start while the flag is set reports already_running
and changes nothing; a start from idle with no dump1090 binary reports an
error, keeps the flag false and starts no reader. -/
theorem C8_start_guards_witness :
    ((start_adsb ⟨none, true, []⟩ ⟨true, SpawnOutcome.running⟩).status = "already_running" ∧
     (start_adsb ⟨none, true, []⟩ ⟨true, SpawnOutcome.running⟩).state = ⟨none, true, []⟩ ∧
     (start_adsb ⟨none, true, []⟩ ⟨true, SpawnOutcome.running⟩).readerStarted = false) ∧
    ((start_adsb ⟨none, false, []⟩ ⟨false, SpawnOutcome.running⟩).status = "error" ∧
     (start_adsb ⟨none, false, []⟩
        ⟨false, SpawnOutcome.running⟩).state.adsb_using_service = false ∧
     (start_adsb ⟨none, false, []⟩ ⟨false, SpawnOutcome.running⟩).readerStarted = false) := by
  exact ⟨(C8_start_guards ⟨none, true, []⟩ ⟨true, SpawnOutcome.running⟩).1 (Or.inr rfl),
    (C8_start_guards ⟨none, false, []⟩ ⟨false, SpawnOutcome.running⟩).2
      (by decide) rfl (Or.inl rfl)⟩

/-- C9 counterexample: with two subscribers on the one shared queue, a
single published aircraft event reaches only the first poller (the get
removes it); the second poller receives a keepalive instead of the event
— the channel does not behave as a broadcast. -/
theorem C9_fanout_counterexample :
    generateStep (queuePut [] (OutboundEvent.aircraft { icao := "ABC123" }))
      = (OutboundEvent.aircraft { icao := "ABC123" }, []) ∧
    (generateStep (generateStep (queuePut []
        (OutboundEvent.aircraft { icao := "ABC123" }))).2).1 = OutboundEvent.keepalive ∧
    OutboundEvent.keepalive ≠ OutboundEvent.aircraft { icao := "ABC123" } := by
  decide

/-- C9 amended: the outbound channel is a single shared consumable queue,
not a broadcast: over any interleaving of two subscribers' polls, the
copies of a given aircraft event received by subscriber one, by
subscriber two, and still sitting in the queue sum to the number
originally enqueued — each published event is delivered to exactly one
subscriber in total, never fanned out to all. -/
theorem C9_single_consumer_amended (sched : List Bool) (q : List OutboundEvent)
    (e : OutboundEvent) (he : e ≠ OutboundEvent.keepalive) :
    countEvent e (runSubscribers sched q).1 + countEvent e (runSubscribers sched q).2.1 +
      countEvent e (runSubscribers sched q).2.2 = countEvent e q := by
  induction sched generalizing q with
  | nil => simp [runSubscribers, countEvent]
  | cons b sched ih =>
    have hk : (if OutboundEvent.keepalive = e then 1 else 0) = 0 :=
      if_neg (fun hc => he hc.symm)
    cases q with
    | nil =>
      have h0 := ih []
      simp only [countEvent] at h0
      cases b <;>
        · simp [runSubscribers, generateStep, countEvent, hk]
          omega
    | cons x rest =>
      have h0 := ih rest
      cases b <;>
        · simp [runSubscribers, generateStep, countEvent]
          omega

/-- Witness for the amended C9: one aircraft event, polled by subscriber
one then subscriber two — exactly one copy is delivered in total. -/
theorem C9_single_consumer_amended_witness :
    countEvent (OutboundEvent.aircraft { icao := "ABC123" })
        (runSubscribers [true, false] [OutboundEvent.aircraft { icao := "ABC123" }]).1 +
      countEvent (OutboundEvent.aircraft { icao := "ABC123" })
        (runSubscribers [true, false] [OutboundEvent.aircraft { icao := "ABC123" }]).2.1 +
      countEvent (OutboundEvent.aircraft { icao := "ABC123" })
        (runSubscribers [true, false] [OutboundEvent.aircraft { icao := "ABC123" }]).2.2 =
      countEvent (OutboundEvent.aircraft { icao := "ABC123" })
        [OutboundEvent.aircraft { icao := "ABC123" }] := by
  exact C9_single_consumer_amended [true, false]
    [OutboundEvent.aircraft { icao := "ABC123" }]
    (OutboundEvent.aircraft { icao := "ABC123" }) (by decide)

end Adsb
